import Mathlib

/-!
Verification of the COLMAP-conversion script `convert_zup.py` (Skyfall-GS).

The development shallowly embeds the script's pure core:

* Python's `str.strip()` / `str.split()` / `startswith('#')` on the lines of
  the COLMAP text model files;
* Python's `float(...)` / `repr` round-trip, modelled exactly over decimal
  literals as a sign/mantissa/exponent triple (the values occurring in the
  COLMAP text files are short decimals, on which the exact-decimal model
  agrees with binary64 parse-plus-shortest-repr);
* `apply_yz_swap_to_colmap_output`, the per-line Y-Z swap over the
  `points3D.txt` and `images.txt` line lists, with `Option` as the model of a
  Python exception escaping the function (e.g. `float()` on a non-numeric
  field);
* the main reconstruction pipeline (`runPipeline`) over an abstract
  filesystem and a record of external-collaborator exit codes, with the trace
  of collaborator invocations made explicit.
-/

namespace ConvertZup

/-- The ASCII whitespace characters recognised by Python's `str.split()` /
`str.strip()` (the text model files contain no exotic Unicode whitespace). -/
def isWS (c : Char) : Bool :=
  c = ' ' || c = '\t' || c = '\n' || c = '\r' || c = '\x0b' || c = '\x0c'

/-- Model of Python `line.strip()`. -/
def pyStrip (s : String) : String :=
  String.mk (((s.data.dropWhile isWS).reverse.dropWhile isWS).reverse)

/-- Splitting a character list at whitespace runs, discarding empty words:
the core of Python's `str.split()` with no argument. -/
def splitWSAux : List Char → List Char → List (List Char)
  | [], acc => if acc.isEmpty then [] else [acc.reverse]
  | c :: cs, acc =>
    if isWS c then
      if acc.isEmpty then splitWSAux cs [] else acc.reverse :: splitWSAux cs []
    else splitWSAux cs (c :: acc)

/-- Model of Python `line.split()` (equivalently `line.strip().split()`,
which is what the script writes: leading/trailing whitespace yields no
fields). -/
def pySplit (s : String) : List String :=
  (splitWSAux s.data []).map String.mk

/-- Model of Python `line.startswith('#')`. -/
def startsHash (s : String) : Bool :=
  match s.data with
  | '#' :: _ => true
  | _ => false

/-- Leading-segment test on character lists. -/
def leadsList : List Char → List Char → Bool
  | [], _ => true
  | _ :: _, [] => false
  | a :: as, b :: bs => a = b && leadsList as bs

/-- Substring containment, model of Python's `pat in line`. -/
def containsSub (pat s : String) : Bool :=
  (List.range (s.data.length + 1)).any (fun k => leadsList pat.data (s.data.drop k))

/-- Model of a Python float as parsed by `float(...)` from the decimal
literals found in COLMAP text files: a sign, a mantissa and a decimal
exponent, the represented value being `(-1)^neg * mant / 10^exp`.  The
triple is kept normalised (no trailing zero fractional digits), so that
formatting reproduces Python's `repr` on the short exactly-representable
decimals the script handles. -/
structure PyFloat where
  neg : Bool
  mant : Nat
  exp : Nat
deriving DecidableEq, Repr

/-- Digit-list value accumulator. -/
def digitsVal (ds : List Char) : Nat :=
  ds.foldl (fun n c => n * 10 + (c.toNat - 48)) 0

/-- Strip trailing zero fractional digits (`fuel`-bounded, fuel = exponent). -/
def stripZeros : Nat → Nat → Nat → Nat × Nat
  | 0, m, e => (m, e)
  | f + 1, m, e =>
    if e = 0 then (m, e)
    else if m % 10 = 0 then stripZeros f (m / 10) (e - 1)
    else (m, e)

/-- Model of Python `float(token)` on plain decimal literals
(`[+-]?digits[.digits]`); `none` models the `ValueError` that a
non-numeric token raises (which escapes the script uncaught). -/
def parseFloat (s : String) : Option PyFloat :=
  let (neg, cs) :=
    match s.data with
    | '-' :: cs => (true, cs)
    | '+' :: cs => (false, cs)
    | cs => (false, cs)
  let ip := cs.takeWhile Char.isDigit
  let rest := cs.dropWhile Char.isDigit
  match rest with
  | [] =>
    if ip.isEmpty then none
    else some { neg := neg, mant := digitsVal ip, exp := 0 }
  | '.' :: rest2 =>
    let fp := rest2.takeWhile Char.isDigit
    let rest3 := rest2.dropWhile Char.isDigit
    if rest3.isEmpty = false then none
    else if ip.isEmpty && fp.isEmpty then none
    else
      let m := digitsVal (ip ++ fp)
      let e := fp.length
      let (m2, e2) := stripZeros e m e
      some { neg := neg, mant := m2, exp := e2 }
  | _ => none

/-- Decimal digits of a natural number, most significant first. -/
def natDigitsAux : Nat → Nat → List Char
  | 0, _ => []
  | f + 1, n =>
    if n < 10 then [Char.ofNat (48 + n)]
    else natDigitsAux f (n / 10) ++ [Char.ofNat (48 + n % 10)]

/-- Decimal digits of a natural number, most significant first. -/
def natDigits (n : Nat) : List Char := natDigitsAux (n + 1) n

/-- Model of Python `repr(x)` (equivalently `f-string` interpolation of a
float) on the magnitudes the script handles: always at least one integer
digit and one fractional digit, e.g. `1.0`, `0.5`, `-2.75`. -/
def fmtFloat (x : PyFloat) : String :=
  let sign := if x.neg then "-" else ""
  if x.exp = 0 then sign ++ String.mk (natDigits x.mant) ++ ".0"
  else
    let ds0 := natDigits x.mant
    let ds := List.replicate (x.exp + 1 - ds0.length) '0' ++ ds0
    sign ++ String.mk (ds.take (ds.length - x.exp)) ++ "." ++
      String.mk (ds.drop (ds.length - x.exp))

/-- The point coordinate permutation of `apply_yz_swap_to_colmap_output`:
`[X, Y, Z] -> [X, Z, Y]` (script line 54). -/
def pointSwap (v : PyFloat × PyFloat × PyFloat) : PyFloat × PyFloat × PyFloat :=
  (v.1, v.2.2, v.2.1)

/-- The pose permutation of `apply_yz_swap_to_colmap_output`
(script lines 94-96): quaternion `(qw,qx,qy,qz) -> (qw,qx,qz,qy)` and
translation `(tx,ty,tz) -> (tx,tz,ty)`, on the 7-tuple
`(qw,qx,qy,qz,tx,ty,tz)`. -/
def poseSwap (v : PyFloat × PyFloat × PyFloat × PyFloat × PyFloat × PyFloat × PyFloat) :
    PyFloat × PyFloat × PyFloat × PyFloat × PyFloat × PyFloat × PyFloat :=
  (v.1, v.2.1, v.2.2.2.1, v.2.2.1, v.2.2.2.2.1, v.2.2.2.2.2.2, v.2.2.2.2.2.1)

/-- Space-joining of the opaque trailing fields: Python `' '.join(parts[4:])`. -/
def joinSp (parts : List String) : String := String.intercalate " " parts

/-- One line of the `points3D.txt` loop (script lines 43-58): comments and
blank lines pass through; a line with at least 4 fields has its second and
third coordinates swapped and is re-serialised; shorter lines pass through;
`none` models a `float()` exception. -/
def transformPointLine (line : String) : Option String :=
  if startsHash line then some line
  else if pyStrip line = "" then some line
  else
    match pySplit line with
    | pid :: xs :: ys :: zs :: rest =>
      match parseFloat xs, parseFloat ys, parseFloat zs with
      | some x, some y, some z =>
        let v := pointSwap (x, y, z)
        some (pid ++ " " ++ fmtFloat v.1 ++ " " ++ fmtFloat v.2.1 ++ " " ++
          fmtFloat v.2.2 ++ " " ++ joinSp rest ++ "\n")
      | _, _, _ => none
    | _ => some line

/-- One pose line of the `images.txt` loop (script lines 85-99): a line with
at least 10 fields has its quaternion/translation permuted by `poseSwap` and
is re-serialised from its first 10 fields; shorter lines pass through. -/
def transformPoseLine (line : String) : Option String :=
  match pySplit line with
  | i0 :: f1 :: f2 :: f3 :: f4 :: f5 :: f6 :: f7 :: cid :: nm :: _ =>
    match parseFloat f1, parseFloat f2, parseFloat f3, parseFloat f4,
        parseFloat f5, parseFloat f6, parseFloat f7 with
    | some qw, some qx, some qy, some qz, some tx, some ty, some tz =>
      let v := poseSwap (qw, qx, qy, qz, tx, ty, tz)
      some (i0 ++ " " ++ fmtFloat v.1 ++ " " ++ fmtFloat v.2.1 ++ " " ++
        fmtFloat v.2.2.1 ++ " " ++ fmtFloat v.2.2.2.1 ++ " " ++
        fmtFloat v.2.2.2.2.1 ++ " " ++ fmtFloat v.2.2.2.2.2.1 ++ " " ++
        fmtFloat v.2.2.2.2.2.2 ++ " " ++ cid ++ " " ++ nm ++ "\n")
    | _, _, _, _, _, _, _ => none
  | _ => some line

/-- The header-terminator marker tested by the `images.txt` loop
(script line 76). -/
def markerStr : String := "# Number of images:"

/-- Comment-or-blank test of the `images.txt` loop (script line 74). -/
def isCB (l : String) : Bool := startsHash l || pyStrip l = ""

/-- The `points3D.txt` loop over all lines (script lines 43-58); `none`
models an uncaught exception aborting the whole pass. -/
def pointsGo : List String → Option (List String)
  | [] => some []
  | l :: ls =>
    match transformPointLine l with
    | none => none
    | some t => (pointsGo ls).map (fun r => t :: r)

/-- The `images.txt` loop (script lines 70-102), carrying the `enumerate`
index `i` and the `in_camera_section` flag: comment/blank lines pass through
(clearing the flag when they contain the marker); lines before the marker
pass through; after the marker, lines at even absolute index `i` are pose
lines and are transformed, odd ones pass through. -/
def imagesGo : Nat → Bool → List String → Option (List String)
  | _, _, [] => some []
  | i, cam, l :: ls =>
    if isCB l then
      let cam2 := if containsSub markerStr l then false else cam
      (imagesGo (i + 1) cam2 ls).map (fun r => l :: r)
    else if cam then (imagesGo (i + 1) cam ls).map (fun r => l :: r)
    else if i % 2 = 0 then
      match transformPoseLine l with
      | none => none
      | some t => (imagesGo (i + 1) cam ls).map (fun r => t :: r)
    else (imagesGo (i + 1) cam ls).map (fun r => l :: r)

/-- The `in_camera_section` flag after the loop has consumed a list of
lines, starting from flag value `cam`. -/
def camAfter (cam : Bool) : List String → Bool
  | [] => cam
  | l :: ls => camAfter (if isCB l && containsSub markerStr l then false else cam) ls

/-- The text-model files of a sparse directory; `none` is an absent file,
`some lines` the file's lines as read by `readlines()`. -/
structure TextModel where
  cameras : Option (List String)
  images : Option (List String)
  points3D : Option (List String)
deriving DecidableEq, Repr

/-- The function `apply_yz_swap_to_colmap_output` (script lines 29-108) over
a `TextModel`: transforms `points3D.txt` if present, then `images.txt` if
present; `cameras.txt` is never opened.  Returns the new model together
with the list of file names written back; `none` models an uncaught
exception aborting the pass. -/
def apply_yz_swap_to_colmap_output (m : TextModel) :
    Option (TextModel × List String) :=
  let pStep : Option (Option (List String) × List String) :=
    match m.points3D with
    | none => some (none, [])
    | some ls => (pointsGo ls).map (fun ls2 => (some ls2, ["points3D.txt"]))
  match pStep with
  | none => none
  | some (p2, w1) =>
    match m.images with
    | none => some ({ m with points3D := p2 }, w1)
    | some ls =>
      match imagesGo 0 true ls with
      | none => none
      | some ls2 =>
        some ({ m with points3D := p2, images := some ls2 }, w1 ++ ["images.txt"])

/-! ### The main pipeline (script lines 136-268) -/

/-- The command-line arguments the pipeline's control flow depends on. -/
structure Args where
  skip_matching : Bool
  resize : Bool
  auto_z_up : Bool
deriving DecidableEq, Repr

/-- One external-collaborator invocation issued by the script. -/
inductive Cmd where
  | featureExtractor
  | exhaustiveMatcher
  | mapper
  | modelConverter
  | magick (file : String) (divisor : Nat)
deriving DecidableEq, Repr

/-- The behaviour of the external collaborators during one run: the exit
code of each tool invocation, the images table feature extraction leaves in
`database.db`, the subdirectories the mapper creates under `sparse/`, and
the text model `model_converter` writes into `sparse/0` on success. -/
structure Collab where
  featCode : Int
  matchCode : Int
  mapperCode : Int
  convertCode : Int
  dbImages : List (Nat × String)
  sparseOutputs : List String
  exportedModel : TextModel
  resizeCode : String → Nat → Int

/-- The canonical `sparse/0` directory: its text-model files and the
subdirectories relocated into it. -/
structure Sparse0 where
  text : TextModel
  subs : List String
deriving DecidableEq, Repr

/-- The slice of the filesystem the script observes and mutates, rooted at
`source_path`.  `none` directory fields are absent directories/files. -/
structure FS where
  input : List String
  imagesDir : Option (List String)
  sparseEntries : Option (List String)
  sparse0 : Option Sparse0
  db : Option (List (Nat × String))
  images2 : Option (List String)
  images4 : Option (List String)
  images8 : Option (List String)
deriving DecidableEq, Repr

/-- An absent text model (fresh `sparse/0`: no text files yet). -/
def emptyTM : TextModel := { cameras := none, images := none, points3D := none }

/-- Directory listing after copying `src` files into a directory already
holding `dst` (overwriting duplicates): `shutil.copy2` per file. -/
def copyNames (dst src : List String) : List String :=
  dst ++ src.filter (fun f => (dst.contains f) = false)

/-- The resize loop (script lines 240-263): per file, copy into
`images_2`/`images_4`/`images_8` and invoke the image tool at 50%/25%/12.5%;
the first non-zero exit code aborts the run with that code. -/
def resizeGo (mag : String → Nat → Int) (fs : FS) (tr : List Cmd) :
    List String → (FS × List Cmd) × Option Int
  | [] => ((fs, tr), none)
  | f :: rest =>
    let fs2 := { fs with images2 := some (copyNames (fs.images2.getD []) [f]) }
    let tr2 := tr ++ [Cmd.magick f 2]
    if mag f 2 ≠ 0 then ((fs2, tr2), some (mag f 2))
    else
      let fs4 := { fs2 with images4 := some (copyNames (fs2.images4.getD []) [f]) }
      let tr4 := tr2 ++ [Cmd.magick f 4]
      if mag f 4 ≠ 0 then ((fs4, tr4), some (mag f 4))
      else
        let fs8 := { fs4 with images8 := some (copyNames (fs4.images8.getD []) [f]) }
        let tr8 := tr4 ++ [Cmd.magick f 8]
        if mag f 8 ≠ 0 then ((fs8, tr8), some (mag f 8))
        else resizeGo mag fs8 tr8 rest

/-- The optional resize stage (script lines 234-263): create the three
pyramid directories, then run the per-file loop over `images/`. -/
def finishResize (a : Args) (c : Collab) (fs : FS) (tr : List Cmd) :
    (FS × List Cmd) × Option Int :=
  if a.resize then
    let fs2 := { fs with
      images2 := some (fs.images2.getD []),
      images4 := some (fs.images4.getD []),
      images8 := some (fs.images8.getD []) }
    resizeGo c.resizeCode fs2 tr (fs2.imagesDir.getD [])
  else ((fs, tr), none)

/-- Everything after the matching stage (script lines 180-268): copy
`input/` into `images/`, relocate non-`0` entries of `sparse/` under
`sparse/0`, export the model to text, optionally apply the Y-Z swap (and,
when `database.db` exists with a non-empty images table, apply it a second
time via `force_z_up_with_nadir_image`, script lines 110-134 and 217-219),
then the resize stage. -/
def afterMatching (a : Args) (c : Collab) (fs : FS) (tr : List Cmd) :
    (FS × List Cmd) × Option Int :=
  let fsI := { fs with imagesDir := some (copyNames (fs.imagesDir.getD []) fs.input) }
  match fsI.sparseEntries with
  | none => ((fsI, tr), some 1)
  | some entries =>
    let s0 := fsI.sparse0.getD { text := emptyTM, subs := [] }
    let moved := entries.filter (fun f => f ≠ "0")
    let subs := s0.subs ++ moved
    let fsR := { fsI with
      sparseEntries := some ["0"],
      sparse0 := some { text := s0.text, subs := subs } }
    let trC := tr ++ [Cmd.modelConverter]
    if c.convertCode ≠ 0 then ((fsR, trC), some c.convertCode)
    else
      let fsC := { fsR with sparse0 := some { text := c.exportedModel, subs := subs } }
      if a.auto_z_up then
        match apply_yz_swap_to_colmap_output c.exportedModel with
        | none => ((fsC, trC), some 1)
        | some (m1, _) =>
          let fs1 := { fsC with sparse0 := some { text := m1, subs := subs } }
          match fs1.db with
          | none => finishResize a c fs1 trC
          | some imgs =>
            if imgs.isEmpty then finishResize a c fs1 trC
            else
              match apply_yz_swap_to_colmap_output m1 with
              | none => ((fs1, trC), some 1)
              | some (m2, _) =>
                finishResize a c { fs1 with sparse0 := some { text := m2, subs := subs } } trC
      else finishResize a c fsC trC

/-- The whole script run (lines 136-268): the matching stage (feature
extraction, exhaustive matching, mapping — each aborting the run with its
exit code on failure), then `afterMatching`.  The result is the final
filesystem, the trace of collaborator invocations, and `some code` when the
run terminated early via `exit(code)` (`none`: ran to completion). -/
def runPipeline (a : Args) (c : Collab) (fs : FS) : (FS × List Cmd) × Option Int :=
  if a.skip_matching then afterMatching a c fs []
  else
    let fs1 := { fs with sparseEntries := some (fs.sparseEntries.getD []) }
    let tr1 := [Cmd.featureExtractor]
    if c.featCode ≠ 0 then ((fs1, tr1), some c.featCode)
    else
      let fs2 := { fs1 with db := some c.dbImages }
      let tr2 := tr1 ++ [Cmd.exhaustiveMatcher]
      if c.matchCode ≠ 0 then ((fs2, tr2), some c.matchCode)
      else
        let tr3 := tr2 ++ [Cmd.mapper]
        if c.mapperCode ≠ 0 then ((fs2, tr3), some c.mapperCode)
        else
          let entries3 := copyNames (fs2.sparseEntries.getD []) c.sparseOutputs
          afterMatching a c { fs2 with sparseEntries := some entries3 } tr3

/-! ### Concrete run of the end-to-end scenario of claim C1 -/

/-- The text model `model_converter` exports in the C1 scenario: every
numeric field already in canonical float format, so a Y-Z-swapped copy and
the original differ exactly in the swapped fields. -/
def c1Model : TextModel :=
  { cameras := some ["# cams\n", "1 PINHOLE 2 2 1.0 1.0 1.0 1.0\n"],
    images := some ["# hdr\n", "# Number of images: 1\n",
      "1 1.0 0.0 0.0 0.0 0.0 1.0 2.0 1 a.jpg\n", "1.0 2.0 7\n"],
    points3D := some ["# pts\n", "7 1.0 2.0 3.0 10 20 30\n"] }

/-- Collaborators of the C1 scenario: every invocation succeeds, feature
extraction leaves one image in the database, the mapper produces a single
reconstruction `0`. -/
def c1Collab : Collab :=
  { featCode := 0, matchCode := 0, mapperCode := 0, convertCode := 0,
    dbImages := [(1, "a.jpg")], sparseOutputs := ["0"],
    exportedModel := c1Model, resizeCode := fun _ _ => 0 }

/-- Arguments of the C1 scenario: matching runs, `--auto_z_up` set, no
`--resize`. -/
def c1Args : Args := { skip_matching := false, resize := false, auto_z_up := true }

/-- Initial filesystem of the C1 scenario: an `input/` directory with three
images and nothing else. -/
def c1FS : FS :=
  { input := ["a.jpg", "b.jpg", "c.jpg"], imagesDir := none, sparseEntries := none,
    sparse0 := none, db := none, images2 := none, images4 := none, images8 := none }

/-- An `images.txt` content with a two-line header, used to instantiate the
parity theorem: the pose line sits at absolute index 2. -/
def c2Lines : List String :=
  ["# Number of images: 1\n", "# x\n", "1 1 0 0 0 0 1 2 1 a.jpg\n", "obs line\n"]

/-- The transform's output on `c2Lines`: the pose line rewritten, every
other line unchanged. -/
def c2Out : List String :=
  ["# Number of images: 1\n", "# x\n",
   "1 1.0 0.0 0.0 0.0 0.0 2.0 1.0 1 a.jpg\n", "obs line\n"]

/-- Arguments for the C5 witness run: matching on, resize and z-up
requested (neither may run after the matcher fails). -/
def c5Args : Args := { skip_matching := false, resize := true, auto_z_up := true }

/-- Collaborators for the C5 witness run: feature extraction succeeds, the
exhaustive matcher exits with code 3. -/
def c5Collab : Collab :=
  { featCode := 0, matchCode := 3, mapperCode := 0, convertCode := 0,
    dbImages := [], sparseOutputs := ["0"],
    exportedModel := emptyTM, resizeCode := fun _ _ => 0 }

/-- Initial filesystem for the C5 witness run. -/
def c5FS : FS :=
  { input := ["a.jpg"], imagesDir := none, sparseEntries := none,
    sparse0 := none, db := none, images2 := none, images4 := none, images8 := none }

/-! ## Theorems -/

/-- An `Option.map` producing `some` comes from a `some`. -/
theorem map_cons_eq_some {o : Option (List String)} {l : String} {out : List String}
    (h : o.map (fun r => l :: r) = some out) :
    ∃ out2, o = some out2 ∧ out = l :: out2 := by
  cases o with
  | none => simp at h
  | some o2 => exact ⟨o2, rfl, by simpa using h.symm⟩

/-- Per-index behaviour of the `images.txt` loop, for any starting index and
flag: once the header-terminator flag is down at a non-comment, non-blank
line, the line's treatment is decided by the parity of its absolute
`enumerate` index. -/
theorem imagesGo_spec (lines : List String) :
    ∀ (i : Nat) (cam : Bool) (out : List String),
      imagesGo i cam lines = some out →
      out.length = lines.length ∧
      ∀ j, j < lines.length → isCB (lines.getD j "") = false →
        camAfter cam (lines.take j) = false →
        ((i + j) % 2 = 0 → transformPoseLine (lines.getD j "") = some (out.getD j "")) ∧
        (¬ (i + j) % 2 = 0 → out.getD j "" = lines.getD j "") := by
  induction lines with
  | nil =>
    intro i cam out h
    simp [imagesGo] at h
    subst h
    exact ⟨rfl, by intro j hj; simp at hj⟩
  | cons l ls ih =>
    intro i cam out h
    by_cases hcb : isCB l = true
    · rw [imagesGo, if_pos hcb] at h
      obtain ⟨out2, hrec, hout⟩ := map_cons_eq_some h
      subst hout
      obtain ⟨hlen, hspec⟩ := ih (i + 1) (if containsSub markerStr l then false else cam) out2 hrec
      refine ⟨by simpa using hlen, ?_⟩
      intro j hj hcbj hcamj
      cases j with
      | zero => simp [hcb] at hcbj
      | succ j =>
        rw [List.take_succ_cons, camAfter] at hcamj
        rw [List.getD_cons_succ] at hcbj
        have hstep : (if isCB l && containsSub markerStr l then false else cam) =
            (if containsSub markerStr l then false else cam) := by
          simp [hcb]
        rw [hstep] at hcamj
        have hj2 : j < ls.length := by simpa using hj
        have := hspec j hj2 hcbj hcamj
        have harith : i + (j + 1) = i + 1 + j := by omega
        rw [List.getD_cons_succ, List.getD_cons_succ, harith]
        exact this
    · rw [Bool.not_eq_true] at hcb
      by_cases hcam : cam = true
      · subst hcam
        rw [imagesGo, if_neg (by simp [hcb]), if_pos rfl] at h
        obtain ⟨out2, hrec, hout⟩ := map_cons_eq_some h
        subst hout
        obtain ⟨hlen, hspec⟩ := ih (i + 1) true out2 hrec
        refine ⟨by simpa using hlen, ?_⟩
        intro j hj hcbj hcamj
        cases j with
        | zero => simp [camAfter] at hcamj
        | succ j =>
          rw [List.take_succ_cons, camAfter] at hcamj
          rw [List.getD_cons_succ] at hcbj
          rw [show (if isCB l && containsSub markerStr l then false else true) = true by
            simp [hcb]] at hcamj
          have hj2 : j < ls.length := by simpa using hj
          have := hspec j hj2 hcbj hcamj
          have harith : i + (j + 1) = i + 1 + j := by omega
          rw [List.getD_cons_succ, List.getD_cons_succ, harith]
          exact this
      · rw [Bool.not_eq_true] at hcam
        subst hcam
        by_cases hi : i % 2 = 0
        · rw [imagesGo, if_neg (by simp [hcb]), if_neg (by simp), if_pos hi] at h
          cases ht : transformPoseLine l with
          | none => rw [ht] at h; simp at h
          | some t =>
            rw [ht] at h
            obtain ⟨out2, hrec, hout⟩ := map_cons_eq_some h
            subst hout
            obtain ⟨hlen, hspec⟩ := ih (i + 1) false out2 hrec
            refine ⟨by simpa using hlen, ?_⟩
            intro j hj hcbj hcamj
            cases j with
            | zero =>
              refine ⟨fun _ => ?_, fun hpar => absurd (by simpa using hi) ?_⟩
              · simpa using ht
              · simpa using hpar
            | succ j =>
              rw [List.take_succ_cons, camAfter] at hcamj
              rw [List.getD_cons_succ] at hcbj
              rw [show (if isCB l && containsSub markerStr l then false else false) = false by
                simp [hcb]] at hcamj
              have hj2 : j < ls.length := by simpa using hj
              have := hspec j hj2 hcbj hcamj
              have harith : i + (j + 1) = i + 1 + j := by omega
              rw [List.getD_cons_succ, List.getD_cons_succ, harith]
              exact this
        · rw [imagesGo, if_neg (by simp [hcb]), if_neg (by simp), if_neg hi] at h
          obtain ⟨out2, hrec, hout⟩ := map_cons_eq_some h
          subst hout
          obtain ⟨hlen, hspec⟩ := ih (i + 1) false out2 hrec
          refine ⟨by simpa using hlen, ?_⟩
          intro j hj hcbj hcamj
          cases j with
          | zero =>
            refine ⟨fun hpar => absurd ?_ hi, fun _ => by simp⟩
            simpa using hpar
          | succ j =>
            rw [List.take_succ_cons, camAfter] at hcamj
            rw [List.getD_cons_succ] at hcbj
            rw [show (if isCB l && containsSub markerStr l then false else false) = false by
              simp [hcb]] at hcamj
            have hj2 : j < ls.length := by simpa using hj
            have := hspec j hj2 hcbj hcamj
            have harith : i + (j + 1) = i + 1 + j := by omega
            rw [List.getD_cons_succ, List.getD_cons_succ, harith]
            exact this

/-- C3: both coordinate transforms are involutions — applying the point
transform twice returns exactly the original `(x, y, z)`, and applying the
pose transform twice returns exactly the original
`(qw, qx, qy, qz, tx, ty, tz)`. -/
theorem c3_swap_involution :
    (∀ v : PyFloat × PyFloat × PyFloat, pointSwap (pointSwap v) = v) ∧
    (∀ v : PyFloat × PyFloat × PyFloat × PyFloat × PyFloat × PyFloat × PyFloat,
      poseSwap (poseSwap v) = v) :=
  ⟨fun _ => rfl, fun _ => rfl⟩

/-- C4: transforming a points file consisting of a comment line, a blank
line and the data line `7 1.0 2.0 3.0 10 20 30 0.5 4 0 5 1` re-emits the
comment and blank lines unchanged in place and rewrites the data line with
Y and Z swapped, identifier and trailing fields untouched. -/
theorem c4_selective_transform :
    pointsGo ["# comment\n", "\n", "7 1.0 2.0 3.0 10 20 30 0.5 4 0 5 1\n"] =
      some ["# comment\n", "\n", "7 1.0 3.0 2.0 10 20 30 0.5 4 0 5 1\n"] := by
  decide

/-- C6: a malformed data line is passed through byte-identically and never
raises: a points-file line with fewer than 4 whitespace-separated fields,
or an images-file pose-position line with fewer than 10, is re-emitted
unchanged. -/
theorem c6_malformed_passthrough :
    (∀ line : String, (pySplit line).length < 4 →
      transformPointLine line = some line) ∧
    (∀ line : String, (pySplit line).length < 10 →
      transformPoseLine line = some line) := by
  constructor
  · intro line h
    by_cases h1 : startsHash line = true
    · simp [transformPointLine, h1]
    · by_cases h2 : pyStrip line = ""
      · simp [transformPointLine, h1, h2]
      · rcases hs : pySplit line with _ | ⟨a, _ | ⟨b, _ | ⟨c, _ | ⟨d, rest⟩⟩⟩⟩
        · simp [transformPointLine, h1, h2, hs]
        · simp [transformPointLine, h1, h2, hs]
        · simp [transformPointLine, h1, h2, hs]
        · simp [transformPointLine, h1, h2, hs]
        · rw [hs] at h; simp at h; omega
  · intro line h
    rcases hs : pySplit line with _ | ⟨a1, _ | ⟨a2, _ | ⟨a3, _ | ⟨a4, _ | ⟨a5, _ |
      ⟨a6, _ | ⟨a7, _ | ⟨a8, _ | ⟨a9, _ | ⟨a10, rest⟩⟩⟩⟩⟩⟩⟩⟩⟩⟩
    · simp [transformPoseLine, hs]
    · simp [transformPoseLine, hs]
    · simp [transformPoseLine, hs]
    · simp [transformPoseLine, hs]
    · simp [transformPoseLine, hs]
    · simp [transformPoseLine, hs]
    · simp [transformPoseLine, hs]
    · simp [transformPoseLine, hs]
    · simp [transformPoseLine, hs]
    · simp [transformPoseLine, hs]
    · rw [hs] at h; simp at h; omega

/-- Closed instance of C6: the two-field points line `1 2` and the
three-field pose line `1 2 3` both pass through unchanged. -/
theorem c6_witness :
    transformPointLine "1 2\n" = some "1 2\n" ∧
    transformPoseLine "1 2 3\n" = some "1 2 3\n" :=
  ⟨c6_malformed_passthrough.1 "1 2\n" (by decide),
   c6_malformed_passthrough.2 "1 2 3\n" (by decide)⟩

/-- Auxiliary to C9: while no comment/blank line carrying the
header-terminator marker has been seen, the loop re-emits every line
unchanged, for any starting index. -/
theorem imagesGo_no_marker (lines : List String) :
    ∀ i : Nat, (∀ l ∈ lines, isCB l = true → containsSub markerStr l = false) →
      imagesGo i true lines = some lines := by
  induction lines with
  | nil => intro i _; rfl
  | cons l ls ih =>
    intro i h
    have hrec := ih (i + 1) (fun x hx hcbx => h x (List.mem_cons_of_mem l hx) hcbx)
    by_cases hcb : isCB l = true
    · have hm := h l (List.mem_cons_self l ls) hcb
      rw [imagesGo, if_pos hcb, hm]
      simp [hrec]
    · rw [Bool.not_eq_true] at hcb
      rw [imagesGo, if_neg (by simp [hcb]), if_pos rfl]
      simp [hrec]

/-- C9: if no comment or blank line of the images file contains the exact
substring of the header-terminator marker, the transform re-emits every
line of the file unchanged — no pose line is ever transformed, because the
header flag is only cleared by such a line. -/
theorem c9_no_marker_no_transform (lines : List String)
    (h : ∀ l ∈ lines, isCB l = true → containsSub markerStr l = false) :
    imagesGo 0 true lines = some lines :=
  imagesGo_no_marker lines 0 h

/-- Closed instance of C9: a comment without the marker followed by a
ten-field pose line; everything is re-emitted unchanged. -/
theorem c9_witness :
    imagesGo 0 true ["# hi\n", "1 1 0 0 0 0 1 2 1 a.jpg\n"] =
      some ["# hi\n", "1 1 0 0 0 0 1 2 1 a.jpg\n"] :=
  c9_no_marker_no_transform _ (by
    intro l hl
    simp only [List.mem_cons, List.not_mem_nil, or_false] at hl
    rcases hl with rfl | rfl <;> decide)

/-- C10: the re-serialised pose line is built from the first 10 fields
only, so a pose line with more than 10 whitespace-separated fields has its
trailing fields dropped: the output does not depend on anything past the
10th field. -/
theorem c10_extra_fields_dropped
    (f0 f1 f2 f3 f4 f5 f6 f7 f8 f9 : String) (r1 r2 : List String) (l1 l2 : String)
    (h1 : pySplit l1 = [f0, f1, f2, f3, f4, f5, f6, f7, f8, f9] ++ r1)
    (h2 : pySplit l2 = [f0, f1, f2, f3, f4, f5, f6, f7, f8, f9] ++ r2)
    (_hne : r1 ≠ []) :
    transformPoseLine l1 = transformPoseLine l2 := by
  unfold transformPoseLine
  rw [h1, h2]
  simp only [List.cons_append, List.nil_append]

/-- Closed instance of C10: an 11-field pose line whose name field is
followed by a stray token transforms exactly like its 10-field truncation
(the token `name.jpg` is lost). -/
theorem c10_witness :
    transformPoseLine "1 1 0 0 0 0 1 2 1 img name.jpg\n" =
      transformPoseLine "1 1 0 0 0 0 1 2 1 img\n" :=
  c10_extra_fields_dropped "1" "1" "0" "0" "0" "0" "1" "2" "1" "img"
    ["name.jpg"] [] _ _ (by decide) (by decide) (by decide)

/-- C2 (counterexample): an images file whose header is a single line (the
marker comment) puts its first data-region line — a ten-field pose line,
even-indexed counting from the first data line — at odd absolute index 1,
and the code leaves it byte-identical instead of transforming it. -/
theorem c2_counterexample :
    imagesGo 0 true
      ["# Number of images: 1\n", "1 1 0 0 0 0 1 2 1 a.jpg\n", "5.0 5.0 3\n"] =
      some ["# Number of images: 1\n", "1 1 0 0 0 0 1 2 1 a.jpg\n", "5.0 5.0 3\n"] ∧
    (pySplit "1 1 0 0 0 0 1 2 1 a.jpg\n").length = 10 ∧
    isCB "1 1 0 0 0 0 1 2 1 a.jpg\n" = false ∧
    camAfter true ["# Number of images: 1\n"] = false ∧
    transformPoseLine "1 1 0 0 0 0 1 2 1 a.jpg\n" ≠
      some "1 1 0 0 0 0 1 2 1 a.jpg\n" := by
  decide

/-- C2 (amended): in the data region it is the parity of a line's absolute
0-based index in the whole file that decides its treatment — lines at even
absolute index are pose lines (rewritten exactly as `transformPoseLine`
does, i.e. transformed when they have at least 10 fields), lines at odd
absolute index are re-emitted byte-identically. -/
theorem c2_parity_is_absolute (lines out : List String)
    (h : imagesGo 0 true lines = some out) :
    out.length = lines.length ∧
    ∀ j, j < lines.length → isCB (lines.getD j "") = false →
      camAfter true (lines.take j) = false →
      (j % 2 = 0 → transformPoseLine (lines.getD j "") = some (out.getD j "")) ∧
      (j % 2 = 1 → out.getD j "" = lines.getD j "") := by
  obtain ⟨hlen, hspec⟩ := imagesGo_spec lines 0 true out h
  refine ⟨hlen, ?_⟩
  intro j hj hcb hcam
  obtain ⟨h1, h2⟩ := hspec j hj hcb hcam
  exact ⟨fun hp => h1 (by omega), fun hp => h2 (by omega)⟩

/-- Closed instance of the amended C2 on `c2Lines` (two header lines, so
the pose line sits at even absolute index 2, the observation line at odd
absolute index 3): the pose line is transformed, the observation line is
byte-identical. -/
theorem c2_parity_witness :
    transformPoseLine (c2Lines.getD 2 "") = some (c2Out.getD 2 "") ∧
    c2Out.getD 3 "" = c2Lines.getD 3 "" := by
  have h : imagesGo 0 true c2Lines = some c2Out := by decide
  exact
    ⟨((c2_parity_is_absolute c2Lines c2Out h).2 2 (by decide) (by decide)
        (by decide)).1 (by decide),
     ((c2_parity_is_absolute c2Lines c2Out h).2 3 (by decide) (by decide)
        (by decide)).2 (by decide)⟩

/-- Value of the store-level pass when both files are absent. -/
theorem apply_yz_none_none (mc : Option (List String)) :
    apply_yz_swap_to_colmap_output ⟨mc, none, none⟩ = some (⟨mc, none, none⟩, []) :=
  rfl

/-- Value of the store-level pass when only `images.txt` is present. -/
theorem apply_yz_img_only (mc : Option (List String)) (ils : List String) :
    apply_yz_swap_to_colmap_output ⟨mc, some ils, none⟩ =
      (imagesGo 0 true ils).map
        (fun l2 => (⟨mc, some l2, none⟩, ["images.txt"])) := by
  cases hi : imagesGo 0 true ils <;>
    simp [apply_yz_swap_to_colmap_output, hi]

/-- Value of the store-level pass when only `points3D.txt` is present. -/
theorem apply_yz_pts_only (mc : Option (List String)) (pls : List String) :
    apply_yz_swap_to_colmap_output ⟨mc, none, some pls⟩ =
      (pointsGo pls).map
        (fun p2 => (⟨mc, none, some p2⟩, ["points3D.txt"])) := by
  cases hp : pointsGo pls <;>
    simp [apply_yz_swap_to_colmap_output, hp]

/-- Value of the store-level pass when both files are present and the
points pass succeeds. -/
theorem apply_yz_both (mc : Option (List String)) (pls ils p2 : List String)
    (hp : pointsGo pls = some p2) :
    apply_yz_swap_to_colmap_output ⟨mc, some ils, some pls⟩ =
      (imagesGo 0 true ils).map
        (fun l2 => (⟨mc, some l2, some p2⟩, ["points3D.txt", "images.txt"])) := by
  cases hi : imagesGo 0 true ils <;>
    simp [apply_yz_swap_to_colmap_output, hp, hi]

/-- Value of the store-level pass when the points pass raises. -/
theorem apply_yz_pts_fail (mc : Option (List String)) (mi : Option (List String))
    (pls : List String) (hp : pointsGo pls = none) :
    apply_yz_swap_to_colmap_output ⟨mc, mi, some pls⟩ = none := by
  cases mi <;> simp [apply_yz_swap_to_colmap_output, hp]

/-- C7: a completed transform pass never touches the camera file — the
cameras collection is identical before and after, and `cameras.txt` is
never among the files written back. -/
theorem c7_cameras_untouched (m r : TextModel) (w : List String)
    (h : apply_yz_swap_to_colmap_output m = some (r, w)) :
    r.cameras = m.cameras ∧ "cameras.txt" ∉ w := by
  obtain ⟨mc, mi, mp⟩ := m
  cases mp with
  | none =>
    cases mi with
    | none =>
      rw [apply_yz_none_none] at h
      simp only [Option.some.injEq, Prod.mk.injEq] at h
      obtain ⟨rfl, rfl⟩ := h
      exact ⟨rfl, by decide⟩
    | some ils =>
      rw [apply_yz_img_only] at h
      cases hi : imagesGo 0 true ils with
      | none => rw [hi] at h; simp at h
      | some l2 =>
        rw [hi] at h
        simp only [Option.map_some', Option.some.injEq, Prod.mk.injEq] at h
        obtain ⟨rfl, rfl⟩ := h
        exact ⟨rfl, by decide⟩
  | some pls =>
    cases hp : pointsGo pls with
    | none => rw [apply_yz_pts_fail mc mi pls hp] at h; simp at h
    | some p2 =>
      cases mi with
      | none =>
        rw [apply_yz_pts_only, hp] at h
        simp only [Option.map_some', Option.some.injEq, Prod.mk.injEq] at h
        obtain ⟨rfl, rfl⟩ := h
        exact ⟨rfl, by decide⟩
      | some ils =>
        rw [apply_yz_both mc pls ils p2 hp] at h
        cases hi : imagesGo 0 true ils with
        | none => rw [hi] at h; simp at h
        | some l2 =>
          rw [hi] at h
          simp only [Option.map_some', Option.some.injEq, Prod.mk.injEq] at h
          obtain ⟨rfl, rfl⟩ := h
          exact ⟨rfl, by decide⟩

/-- Closed instance of C7: a pass over a model with all three files present
leaves the cameras lines identical and writes only the other two files. -/
theorem c7_witness :
    (⟨some ["# c\n"], some ["# i\n"], some ["# p\n"]⟩ : TextModel).cameras =
      (⟨some ["# c\n"], some ["# i\n"], some ["# p\n"]⟩ : TextModel).cameras ∧
    "cameras.txt" ∉ (["points3D.txt", "images.txt"] : List String) :=
  c7_cameras_untouched ⟨some ["# c\n"], some ["# i\n"], some ["# p\n"]⟩
    ⟨some ["# c\n"], some ["# i\n"], some ["# p\n"]⟩
    ["points3D.txt", "images.txt"] (by decide)

/-- C8 (counterexample): a directory with `points3D.txt` absent whose
present `images.txt` holds a ten-field pose line with a non-numeric
quaternion field makes the pass raise (model: `none`), so absence of a file
does not guarantee the pass completes without failure. -/
theorem c8_counterexample :
    (⟨none, some ["# Number of images: 1\n", "x\n", "1 q 0 0 0 0 1 2 1 a.jpg\n"],
        none⟩ : TextModel).points3D = none ∧
    apply_yz_swap_to_colmap_output
      ⟨none, some ["# Number of images: 1\n", "x\n", "1 q 0 0 0 0 1 2 1 a.jpg\n"],
        none⟩ = none := by
  decide

/-- C8 (amended): an absent model text file is treated as an empty
collection and is never written back — whenever the pass completes, the
absent file is still absent and not among the written files — and when
both files are absent the pass completes without failure, leaving the
model unchanged.  (A present file can still abort the pass if a numeric
field of a transformed line fails to parse.) -/
theorem c8_missing_file_is_skipped (m : TextModel) :
    ((m.points3D = none ∧ m.images = none) →
      apply_yz_swap_to_colmap_output m = some (m, [])) ∧
    ∀ r w, apply_yz_swap_to_colmap_output m = some (r, w) →
      (m.points3D = none → r.points3D = none ∧ "points3D.txt" ∉ w) ∧
      (m.images = none → r.images = none ∧ "images.txt" ∉ w) := by
  obtain ⟨mc, mi, mp⟩ := m
  constructor
  · rintro ⟨hp, hi⟩
    obtain rfl : mp = none := hp
    obtain rfl : mi = none := hi
    rw [apply_yz_none_none]
  · intro r w h
    cases mp with
    | none =>
      cases mi with
      | none =>
        rw [apply_yz_none_none] at h
        simp only [Option.some.injEq, Prod.mk.injEq] at h
        obtain ⟨rfl, rfl⟩ := h
        exact ⟨fun _ => ⟨rfl, by decide⟩, fun _ => ⟨rfl, by decide⟩⟩
      | some ils =>
        rw [apply_yz_img_only] at h
        cases hi : imagesGo 0 true ils with
        | none => rw [hi] at h; simp at h
        | some l2 =>
          rw [hi] at h
          simp only [Option.map_some', Option.some.injEq, Prod.mk.injEq] at h
          obtain ⟨rfl, rfl⟩ := h
          exact ⟨fun _ => ⟨rfl, by decide⟩, fun hc => by simp at hc⟩
    | some pls =>
      cases hp : pointsGo pls with
      | none => rw [apply_yz_pts_fail mc mi pls hp] at h; simp at h
      | some p2 =>
        cases mi with
        | none =>
          rw [apply_yz_pts_only, hp] at h
          simp only [Option.map_some', Option.some.injEq, Prod.mk.injEq] at h
          obtain ⟨rfl, rfl⟩ := h
          exact ⟨fun hc => by simp at hc, fun _ => ⟨rfl, by decide⟩⟩
        | some ils =>
          rw [apply_yz_both mc pls ils p2 hp] at h
          cases hi : imagesGo 0 true ils with
          | none => rw [hi] at h; simp at h
          | some l2 =>
            rw [hi] at h
            simp only [Option.map_some', Option.some.injEq, Prod.mk.injEq] at h
            obtain ⟨rfl, rfl⟩ := h
            exact ⟨fun hc => by simp at hc, fun hc => by simp at hc⟩

/-- Closed instance of the amended C8: both files absent — the pass
completes, changes nothing and writes nothing. -/
theorem c8_witness :
    apply_yz_swap_to_colmap_output ⟨some ["# c\n"], none, none⟩ =
      some (⟨some ["# c\n"], none, none⟩, []) :=
  (c8_missing_file_is_skipped ⟨some ["# c\n"], none, none⟩).1 ⟨rfl, rfl⟩

/-- C5: when matching is not skipped and a matching sub-stage (feature
extraction, exhaustive matching, or mapping) returns a non-zero code, the
run terminates with that same code: the trace shows no model conversion and
no resize invocation, and the filesystem keeps its image directory, its
canonical sparse directory and its resize directories untouched — no image
copy, no relocation, no export, no transform, no resize. -/
theorem c5_matching_fail_fast (a : Args) (c : Collab) (fs : FS)
    (hskip : a.skip_matching = false) :
    (¬ c.featCode = 0 →
      runPipeline a c fs =
        (({ fs with sparseEntries := some (fs.sparseEntries.getD []) },
          [Cmd.featureExtractor]), some c.featCode)) ∧
    (c.featCode = 0 → ¬ c.matchCode = 0 →
      runPipeline a c fs =
        (({ fs with sparseEntries := some (fs.sparseEntries.getD []), db := some c.dbImages },
          [Cmd.featureExtractor, Cmd.exhaustiveMatcher]), some c.matchCode)) ∧
    (c.featCode = 0 → c.matchCode = 0 → ¬ c.mapperCode = 0 →
      runPipeline a c fs =
        (({ fs with sparseEntries := some (fs.sparseEntries.getD []), db := some c.dbImages },
          [Cmd.featureExtractor, Cmd.exhaustiveMatcher, Cmd.mapper]),
          some c.mapperCode)) := by
  refine ⟨fun h1 => ?_, fun h1 h2 => ?_, fun h1 h2 h3 => ?_⟩
  · simp [runPipeline, hskip, h1]
  · simp [runPipeline, hskip, h1, h2]
  · simp [runPipeline, hskip, h1, h2, h3]

/-- Closed instance of C5: the matcher exits with code 3; the run stops
right there with code 3, leaving everything but the freshly created
`sparse/` directory and the database untouched. -/
theorem c5_witness :
    runPipeline c5Args c5Collab c5FS =
      (({ c5FS with sparseEntries := some [], db := some [] },
        [Cmd.featureExtractor, Cmd.exhaustiveMatcher]), some 3) :=
  (c5_matching_fail_fast c5Args c5Collab c5FS rfl).2.1 rfl (by decide)

/-- C1 (evaluating the code at the failing scenario): a full successful run
with matching on, `--auto_z_up` set and no `--resize` ends with
`sparse/0`'s text model byte-identical to the exported model — the Y-Z
swap was applied twice (directly, then again through
`force_z_up_with_nadir_image` because the database holds an image), and
swapping twice is the identity — although a single application (second
conjunct) does permute the coordinates.  The `images_2/4/8` directories
are indeed never created. -/
theorem c1_double_swap_restores_model :
    runPipeline c1Args c1Collab c1FS =
      (({ input := ["a.jpg", "b.jpg", "c.jpg"],
          imagesDir := some ["a.jpg", "b.jpg", "c.jpg"],
          sparseEntries := some ["0"],
          sparse0 := some { text := c1Model, subs := [] },
          db := some [(1, "a.jpg")],
          images2 := none, images4 := none, images8 := none },
        [Cmd.featureExtractor, Cmd.exhaustiveMatcher, Cmd.mapper,
          Cmd.modelConverter]), none) ∧
    pointsGo ["# pts\n", "7 1.0 2.0 3.0 10 20 30\n"] =
      some ["# pts\n", "7 1.0 3.0 2.0 10 20 30\n"] := by
  decide

end ConvertZup
